import Mathlib

/-!
Shallow embedding of `src/kicad-import.py` (Import-LIB-KiCad-Plugin).

Library files are modelled as lists of lines (`List String`), the filesystem
as a map from path strings to optional file contents plus a directory
predicate, and the interactive prompts as explicit reply parameters.  The
functions `import_dcm`, `import_lib`, `import_model`, `import_footprint`,
`check_file` and `import_all` below transliterate the Python functions of the
same names; the record-locating scans and the streaming merge loop that the
Python source writes inline are given names (`dcmScanA`, `libScanA`,
`mergeFrom`, ...) so that theorems can speak about them directly.  The Python
string primitives (`startswith`, `strip`, `split`, ...) are re-implemented on
character lists so that every definition evaluates by kernel reduction.
-/

/-- Python `str.startswith(pre)`. -/
def pyStartsWith (s pre : String) : Bool := pre.toList.isPrefixOf s.toList

/-- Python `suffix` test `str.endswith(suf)`. -/
def pyEndsWith (s suf : String) : Bool := suf.toList.reverse.isPrefixOf s.toList.reverse

/-- Python `str.strip()` (whitespace on both ends). -/
def pyStrip (s : String) : String :=
  String.mk (((s.toList.dropWhile Char.isWhitespace).reverse.dropWhile Char.isWhitespace).reverse)

/-- Python `str.strip(c)` for a single character argument: remove every
leading and trailing occurrence of `c`. -/
def stripChar (c : Char) (s : String) : String :=
  String.mk ((((s.toList.dropWhile (· == c)).reverse).dropWhile (· == c)).reverse)

/-- Python `str.lower()` (ASCII case folding suffices here). -/
def pyLower (s : String) : String := String.mk (s.toList.map Char.toLower)

/-- Helper for `splitWs`: split a character list on whitespace runs,
accumulating the current (reversed) word. -/
def splitWsAux : List Char → List Char → List String
  | [], acc => if acc = [] then [] else [String.mk acc.reverse]
  | c :: cs, acc =>
    if c.isWhitespace then
      if acc = [] then splitWsAux cs []
      else String.mk acc.reverse :: splitWsAux cs []
    else splitWsAux cs (c :: acc)

/-- Python `str.split()` with no argument: split on whitespace runs,
discarding empty pieces. -/
def splitWs (s : String) : List String := splitWsAux s.toList []

/-- Python `s.replace(old, new, 1)` on character lists: replace the first
occurrence of `old` by `new`. -/
def replaceFirstAux (old new : List Char) : List Char → List Char
  | [] => if old = [] then new else []
  | c :: cs =>
    if old.isPrefixOf (c :: cs) then new ++ (c :: cs).drop old.length
    else c :: replaceFirstAux old new cs

/-- Python `s.replace(old, new, 1)` on strings. -/
def replaceFirst (s old new : String) : String :=
  String.mk (replaceFirstAux old.toList new.toList s.toList)

/-- The trailer test `re.match('# *end ', line, re.IGNORECASE)`: a `#`,
any number of spaces, then `end` case-insensitively, then a space. -/
def isTrailer (line : String) : Bool :=
  match line.toList with
  | '#' :: rest =>
    match rest.dropWhile (· == ' ') with
    | e :: n :: d :: sp :: _ =>
      (e.toLower == 'e') && (n.toLower == 'n') && (d.toLower == 'd') && (sp == ' ')
    | _ => false
  | _ => false

/-- Python slice `ls[a:b]`. -/
def pySlice (ls : List String) (a b : Nat) : List String :=
  (ls.take b).drop a

/-- Python `pathlib.Path.parent` on a `/`-separated path string. -/
def parentDir (p : String) : String :=
  String.mk ((((p.toList.reverse).dropWhile (· ≠ '/')).drop 1).reverse)

/-- The `Modification` enum of the source. -/
inductive Modification where
  | MKDIR
  | TOUCH_FILE
  | MODIFIED_FILE
  | EXTRACTED_FILE
deriving DecidableEq, Repr

/-- The `REMOTE_TYPES` enum of the source. -/
inductive REMOTE_TYPES where
  | OCTOPART
  | SAMACSYS
  | ULTRA_LIBRARIAN
  | SNAPEDA
deriving DecidableEq, Repr

/-- Python `Enum.name`. -/
def REMOTE_TYPES.name : REMOTE_TYPES → String
  | .OCTOPART => "OCTOPART"
  | .SAMACSYS => "SAMACSYS"
  | .ULTRA_LIBRARIAN => "ULTRA_LIBRARIAN"
  | .SNAPEDA => "SNAPEDA"

/-- The modification ledger: `ModifiedObject.dict` is a Python dict from
paths to `Modification`s, i.e. an insertion-ordered association list. -/
abbrev Log := List (String × Modification)

/-- The method `ModifiedObject.append`: Python dict assignment `self.dict[obj] = m` —
if the key is already present its value is replaced in place, otherwise a
new entry is appended at the end. -/
def ModifiedObject.append (log : Log) (p : String) (m : Modification) : Log :=
  if log.any (fun e => e.1 = p) then
    log.map (fun e => if e.1 = p then (p, m) else e)
  else log ++ [(p, m)]

/-- Filesystem model: file contents by path, plus which directories exist. -/
structure Fs where
  files : String → Option (List String)
  dirs : String → Bool

def emptyFs : Fs := ⟨fun _ => none, fun _ => false⟩

def Fs.writeFile (fs : Fs) (p : String) (c : List String) : Fs :=
  ⟨fun q => if q = p then some c else fs.files q, fs.dirs⟩

def Fs.mkdirAt (fs : Fs) (p : String) : Fs :=
  ⟨fs.files, fun q => q = p || fs.dirs q⟩

/-- Python `Path.replace`: rename `src` over `dst`; fails when `src` is missing. -/
def fsReplace (src dst : String) (fs : Fs) : Option Fs :=
  match fs.files src with
  | none => none
  | some c =>
    some ⟨fun q => if q = dst then some c else if q = src then none else fs.files q, fs.dirs⟩

/-- The configured target directories (`config.py` values, abstract). -/
def REMOTE_LIB_PATH : String := "remote/lib"

def REMOTE_FOOTPRINTS_PATH : String := "remote/fp"

def REMOTE_3DMODEL_PATH : String := "remote/3d"

/-- The helper `check_file`: create parent directory and touch the file if missing,
recording the side effects in the ledger. -/
def check_file (p : String) (st : Fs × Log) : Fs × Log :=
  if (st.1.files p).isSome then st
  else
    let st1 :=
      if st.1.dirs (parentDir p) then st
      else (st.1.mkdirAt (parentDir p), ModifiedObject.append st.2 (parentDir p) .MKDIR)
    (st1.1.writeFile p [], ModifiedObject.append st1.2 p .TOUCH_FILE)

/-- Replies accepted by the `import_dcm` / `import_model` /
`import_footprint` overwrite prompts: `input(...) or "Yes"` then membership
in `('y', 'yes', 'Yes', 'Y', 'YES')`. -/
def plainAccepts (reply : String) : Bool :=
  let r := if reply = "" then "Yes" else reply
  r = "y" || r = "yes" || r = "Yes" || r = "Y" || r = "YES"

/-- Replies accepted by the `import_lib` overwrite prompt:
`yes = input(...) or "Yes"; yes and 'yes'.startswith(yes.lower())`. -/
def libAccepts (reply : String) : Bool :=
  let yes := if reply = "" then "Yes" else reply
  (decide (yes ≠ "")) && pyStartsWith "yes" (pyLower yes)

/-- Errors raised (as Python `Warning`s) by the record-locating scans. -/
inductive ScanErr where
  | unexpectedDevice
  | multipleDevices
  | notFound
deriving DecidableEq, Repr

/-- The `import_dcm` scan, state with `index_start` set and `index_end` unset:
returns the edited remaining lines and the (absolute) end index.  A second
`$CMP ` line raises `Multiple devices`; `$ENDCMP` closes the record; `D`
lines are subjected to the description prompt (`descReply`, empty = keep);
`F` lines are normalised. -/
def dcmScanB (descReply : String) (idx : Nat) : List String → Except ScanErr (List String × Nat)
  | [] => .error .notFound
  | line :: rest =>
    if pyStartsWith line "$CMP " then .error .multipleDevices
    else if pyStartsWith line "$ENDCMP" then .ok (line :: rest, idx + 1)
    else if pyStartsWith line "D" then
      let description := pyStrip (line.drop 2)
      let description := if descReply = "" then description else descReply
      let line1 := if description ≠ "" then "D " ++ description else line
      match dcmScanB descReply (idx + 1) rest with
      | .error e => .error e
      | .ok (ls, e) => .ok (line1 :: ls, e)
    else if pyStartsWith line "F" then
      let datasheet := pyStrip (line.drop 2)
      let line1 := if datasheet ≠ "" then "F " ++ datasheet else line
      match dcmScanB descReply (idx + 1) rest with
      | .error e => .error e
      | .ok (ls, e) => .ok (line1 :: ls, e)
    else
      match dcmScanB descReply (idx + 1) rest with
      | .error e => .error e
      | .ok (ls, e) => .ok (line :: ls, e)

/-- Name extraction for `$CMP ` lines: `attribute[5:].strip()`. -/
def dcmGetName (line : String) : String := pyStrip (line.drop 5)

/-- The `import_dcm` scan, searching for the record opener (`index_start` unset):
tracks the blank-comment header start, raises `Unexpected device` when the
opener name does not start with `device`, and rewrites the opener's name. -/
def dcmScanA (device descReply : String) (hdr : Option Nat) (idx : Nat) :
    List String → Except ScanErr (List String × Nat × Nat × Option Nat)
  | [] => .error .notFound
  | line :: rest =>
    if pyStartsWith line "#" then
      let hdr1 := if pyStrip line = "#" && hdr = none then some idx else hdr
      match dcmScanA device descReply hdr1 (idx + 1) rest with
      | .error e => .error e
      | .ok (ls, s, e, h) => .ok (line :: ls, s, e, h)
    else if pyStartsWith line "$CMP " then
      let component_name := dcmGetName line
      if pyStartsWith component_name device then
        match dcmScanB descReply (idx + 1) rest with
        | .error e => .error e
        | .ok (ls, e) => .ok (replaceFirst line component_name device :: ls, idx, e, hdr)
      else .error .unexpectedDevice
    else
      match dcmScanA device descReply none (idx + 1) rest with
      | .error e => .error e
      | .ok (ls, s, e, h) => .ok (line :: ls, s, e, h)

/-- Name extraction for `DEF ` lines: `line.split()[1]` (the source raises
`IndexError` when the token is absent; here the scan yields `""`). -/
def libGetName (line : String) : String := (splitWs line).getD 1 ""

/-- The `import_lib` scan, after the record end was found: any further `DEF `
line raises `Multiple devices`; other lines pass through unchanged. -/
def libScanC : List String → Except ScanErr (List String)
  | [] => .ok []
  | line :: rest =>
    if pyStartsWith line "DEF " then .error .multipleDevices
    else
      match libScanC rest with
      | .error e => .error e
      | .ok ls => .ok (line :: ls)

/-- The `import_lib` scan with `index_start` set and `index_end` unset: `F2`
footprint fields are rewritten to `<RemoteType>:<footprint>`, `ENDDEF`
closes the record, `F1 ` lines get the (identity) name substitution.  A
second `DEF ` line in this state is NOT detected. -/
def libScanB (device : String) (remote : REMOTE_TYPES) (idx : Nat) :
    List String → Except ScanErr (List String × Nat)
  | [] => .error .notFound
  | line :: rest =>
    if pyStartsWith line "F2" then
      let footprint := stripChar '"' (libGetName line)
      let line1 := replaceFirst line footprint (remote.name ++ ":" ++ footprint)
      match libScanB device remote (idx + 1) rest with
      | .error e => .error e
      | .ok (ls, e) => .ok (line1 :: ls, e)
    else if pyStartsWith line "ENDDEF" then
      match libScanC rest with
      | .error e => .error e
      | .ok ls => .ok (line :: ls, idx + 1)
    else if pyStartsWith line "F1 " then
      let line1 := replaceFirst line device device
      match libScanB device remote (idx + 1) rest with
      | .error e => .error e
      | .ok (ls, e) => .ok (line1 :: ls, e)
    else
      match libScanB device remote (idx + 1) rest with
      | .error e => .error e
      | .ok (ls, e) => .ok (line :: ls, e)

/-- The `import_lib` scan, searching for the record opener. -/
def libScanA (device : String) (remote : REMOTE_TYPES) (hdr : Option Nat) (idx : Nat) :
    List String → Except ScanErr (List String × Nat × Nat × Option Nat)
  | [] => .error .notFound
  | line :: rest =>
    if pyStartsWith line "#" then
      let hdr1 := if pyStrip line = "#" && hdr = none then some idx else hdr
      match libScanA device remote hdr1 (idx + 1) rest with
      | .error e => .error e
      | .ok (ls, s, e, h) => .ok (line :: ls, s, e, h)
    else if pyStartsWith line "DEF " then
      let component_name := libGetName line
      if pyStartsWith component_name device then
        match libScanB device remote (idx + 1) rest with
        | .error e => .error e
        | .ok (ls, e) => .ok (replaceFirst line component_name device :: ls, idx, e, hdr)
      else .error .unexpectedDevice
    else
      match libScanA device remote none (idx + 1) rest with
      | .error e => .error e
      | .ok (ls, s, e, h) => .ok (line :: ls, s, e, h)

/-- Outcome of the streaming merge loop over the target file: `completed`
(broke at the trailer), `declined` (the overwrite prompt was refused and the
function returned early), `noTrailer` (ran off the end of the file).  In
every case `staged` is what has been written to the staging file. -/
inductive MergeOut where
  | completed (staged : List String)
  | declined (staged : List String)
  | noTrailer (staged : List String)
deriving DecidableEq, Repr

def MergeOut.staged : MergeOut → List String
  | .completed s => s
  | .declined s => s
  | .noTrailer s => s

/-- Prepend already-written lines to a merge outcome. -/
def MergeOut.consM (ls : List String) : MergeOut → MergeOut
  | .completed s => .completed (ls ++ s)
  | .declined s => .declined (ls ++ s)
  | .noTrailer s => .noTrailer (ls ++ s)

/-- The streaming merge loop shared (by duplication, in the source) between
`import_dcm` and `import_lib`, parameterised by the record delimiters and
the name extractor.  `insertL` is the source record slice with its header
(`[headerStart ?? start, end)`), `replL` the slice without it
(`[start, end)`), `accept` the overwrite-prompt decision, `skipping` the
Python `overwrite_existing` flag and `overwrote` the `overwrote_existing`
flag. -/
def mergeFrom (openTag closeTag : String) (getName : String → String) (device : String)
    (insertL replL : List String) (accept : Bool) :
    Bool → Bool → List String → MergeOut
  | _, _, [] => .noTrailer []
  | skipping, overwrote, line :: rest =>
    if isTrailer line then
      .completed (if overwrote then [line] else insertL ++ [line])
    else if pyStartsWith line openTag then
      if pyStartsWith (getName line) device then
        if accept then
          .consM replL (mergeFrom openTag closeTag getName device insertL replL accept true true rest)
        else .declined []
      else
        .consM [line] (mergeFrom openTag closeTag getName device insertL replL accept skipping overwrote rest)
    else if skipping then
      if pyStartsWith line closeTag then
        mergeFrom openTag closeTag getName device insertL replL accept false overwrote rest
      else
        mergeFrom openTag closeTag getName device insertL replL accept skipping overwrote rest
    else
      .consM [line] (mergeFrom openTag closeTag getName device insertL replL accept skipping overwrote rest)

/-- The `import_dcm` merge loop over the target description library. -/
def dcmMerge (device : String) (insertL replL : List String) (accept : Bool)
    (lines : List String) : MergeOut :=
  mergeFrom "$CMP " "$ENDCMP" dcmGetName device insertL replL accept false false lines

/-- The `import_lib` merge loop over the target symbol library. -/
def libMerge (device : String) (insertL replL : List String) (accept : Bool)
    (lines : List String) : MergeOut :=
  mergeFrom "DEF " "ENDDEF" libGetName device insertL replL accept false false lines

/-- The default description-record attributes used when the archive has no
`.dcm` file (`import_dcm`'s fallback list). -/
def defaultDcmAttributes (device : String) : List String :=
  ["#", "# " ++ device, "#", "$CMP " ++ device, "D", "F", "$ENDCMP"]

/-- The function `import_dcm` at filesystem level: scan the source record, ensure the
target `<RemoteType>.dcm` and its staging file exist, write the empty-file
template if needed, run the merge loop, and write the staged result.  The
scan `Warning`s are raised before any filesystem operation; the returned
state at an error is therefore the input state. -/
def import_dcm (device : String) (remote : REMOTE_TYPES) (dcmSrc : Option (List String))
    (descReply overwriteReply : String) (st : Fs × Log) :
    (Fs × Log) × Except ScanErr (String × String) :=
  let dcm_attributes := match dcmSrc with
    | some ls => ls
    | none => defaultDcmAttributes device
  match dcmScanA device descReply none 0 dcm_attributes with
  | .error e => (st, .error e)
  | .ok (attrs, s, e, hdr) =>
    let dcm_file_read := REMOTE_LIB_PATH ++ "/" ++ remote.name ++ ".dcm"
    let dcm_file_write := REMOTE_LIB_PATH ++ "/" ++ remote.name ++ ".dcm~"
    let st := check_file dcm_file_read st
    let st := check_file dcm_file_write st
    let fs := st.1
    let content := (fs.files dcm_file_read).getD []
    let fs :=
      if content = [] then fs.writeFile dcm_file_read ["EESchema-DOCLIB  Version 2.0", "#End Doc Library"]
      else fs
    let content := (fs.files dcm_file_read).getD []
    let insertL := pySlice attrs (hdr.getD s) e
    let replL := pySlice attrs s e
    let out := dcmMerge device insertL replL (plainAccepts overwriteReply) content
    ((fs.writeFile dcm_file_write out.staged, st.2), .ok (dcm_file_read, dcm_file_write))

/-- The function `import_lib` at filesystem level, the symbol-library counterpart of
`import_dcm`. -/
def import_lib (device : String) (remote : REMOTE_TYPES) (libSrc : List String)
    (overwriteReply : String) (st : Fs × Log) :
    (Fs × Log) × Except ScanErr (String × String) :=
  match libScanA device remote none 0 libSrc with
  | .error e => (st, .error e)
  | .ok (attrs, s, e, hdr) =>
    let lib_file_read := REMOTE_LIB_PATH ++ "/" ++ remote.name ++ ".lib"
    let lib_file_write := REMOTE_LIB_PATH ++ "/" ++ remote.name ++ ".lib~"
    let st := check_file lib_file_read st
    let st := check_file lib_file_write st
    let fs := st.1
    let content := (fs.files lib_file_read).getD []
    let fs :=
      if content = [] then
        fs.writeFile lib_file_read ["EESchema-LIBRARY Version 2.4", "#encoding utf-8", "# End Library"]
      else fs
    let content := (fs.files lib_file_read).getD []
    let insertL := pySlice attrs (hdr.getD s) e
    let replL := pySlice attrs s e
    let out := libMerge device insertL replL (libAccepts overwriteReply) content
    ((fs.writeFile lib_file_write out.staged, st.2), .ok (lib_file_read, lib_file_write))

/-- The `import_model` loop body: find the first `.step` item, ask before
overwriting an already-installed model (declining returns `None`), extract
it into the shared model directory and record the extraction (the source
logs the archive-side path). -/
def importModelLoop (modelReply : String) (st : Fs × Log) :
    List (String × List String) → (Fs × Log) × Option String
  | [] => (st, none)
  | (name, content) :: rest =>
    if pyEndsWith name ".step" then
      if (st.1.files (REMOTE_3DMODEL_PATH ++ "/" ++ name)).isSome && !plainAccepts modelReply then
        (st, none)
      else
        ((st.1.writeFile (REMOTE_3DMODEL_PATH ++ "/" ++ name) content,
          ModifiedObject.append st.2 name .EXTRACTED_FILE), some name)
    else importModelLoop modelReply st rest

/-- The function `import_model`: ensure the shared model directory exists, then extract
the first `.step` archive item (or return `None`). -/
def import_model (models : List (String × List String)) (modelReply : String)
    (st : Fs × Log) : (Fs × Log) × Option String :=
  let st :=
    if st.1.dirs REMOTE_3DMODEL_PATH then st
    else (st.1.mkdirAt REMOTE_3DMODEL_PATH, ModifiedObject.append st.2 REMOTE_3DMODEL_PATH .MKDIR)
  importModelLoop modelReply st models

/-- The five-line 3D-model reference block appended to footprints. -/
def modelBlock (modelName : String) : List String :=
  ["  (model \"$\x7bREMOTE_3DMODEL_DIR\x7d/" ++ modelName ++ "\"",
   "    (offset (xyz 0 0 0))",
   "    (scale (xyz 1 1 1))",
   "    (rotate (xyz 0 0 0))",
   "  )"]

/-- The `import_footprint` loop: for each `.kicad_mod` / `.mod` archive item,
write its content directly to the real target file under
`<RemoteType>.pretty/`; when a model was installed, additionally build the
staging file with the model block spliced in before the last line (after
an overwrite prompt whose refusal returns early).  Without a model the
staging path is assigned but never created.  `cur` carries the pair of
paths the source returns (`footprint_file_read`, `footprint_file_write`). -/
def importFootprintLoop (remote : REMOTE_TYPES) (foundModel : Option String)
    (fpReply : String) (st : Fs × Log) (cur : Option String × Option String) :
    List (String × List String) → (Fs × Log) × (Option String × Option String)
  | [] => (st, cur)
  | (name, content) :: rest =>
    if pyEndsWith name ".kicad_mod" || pyEndsWith name ".mod" then
      let footprint_write_path := REMOTE_FOOTPRINTS_PATH ++ "/" ++ remote.name ++ ".pretty"
      let fr := footprint_write_path ++ "/" ++ name
      let fw := footprint_write_path ++ "/" ++ name ++ "~"
      match foundModel with
      | some m =>
        if (st.1.files fr).isSome && !plainAccepts fpReply then (st, (some fr, some fw))
        else
          let st := check_file fr st
          let st := (st.1.writeFile fr content, st.2)
          let st := check_file fw st
          let lines := (st.1.files fr).getD []
          let staged :=
            if lines.isEmpty then []
            else lines.dropLast ++ modelBlock m ++ lines.drop (lines.length - 1)
          importFootprintLoop remote foundModel fpReply
            (st.1.writeFile fw staged, st.2) (some fr, some fw) rest
      | none =>
        importFootprintLoop remote foundModel fpReply
          (st.1.writeFile fr content, st.2) (some fr, some fw) rest
    else importFootprintLoop remote foundModel fpReply st cur rest

/-- The function `import_footprint` at filesystem level. -/
def import_footprint (remote : REMOTE_TYPES) (footprints : List (String × List String))
    (foundModel : Option String) (fpReply : String) (st : Fs × Log) :
    (Fs × Log) × (Option String × Option String) :=
  importFootprintLoop remote foundModel fpReply st (none, none) footprints

/-- Errors terminating `import_all`: a scan `Warning`, a promotion whose
staging file does not exist (`FileNotFoundError` from `Path.replace`), or a
promotion on `None` paths (`AttributeError`). -/
inductive ImpErr where
  | warn (e : ScanErr)
  | replaceMissing (p : String)
  | replaceNone
deriving DecidableEq, Repr

/-- The four source artifacts that `get_remote_info` extracts from the
archive, with archive items given as name–content pairs. -/
structure Archive where
  remote : REMOTE_TYPES
  dcmSrc : Option (List String)
  libSrc : List String
  footprints : List (String × List String)
  models : List (String × List String)

/-- One reply per interactive prompt kind (the source calls `input()` at
each prompt; a run's replies of one kind are modelled as equal). -/
structure Prompts where
  desc : String
  dcm : String
  model : String
  fp : String
  lib : String

/-- The orchestrator `import_all`: run the four stages in order, then promote the three
staged files over their originals (dcm, footprint, lib — in that order).
Scan `Warning`s propagate immediately; the final component carries the
state at the moment the run ended. -/
def import_all (device : String) (arc : Archive) (pr : Prompts) (st : Fs × Log) :
    (Fs × Log) × Except ImpErr Unit :=
  match import_dcm device arc.remote arc.dcmSrc pr.desc pr.dcm st with
  | (st, .error e) => (st, .error (.warn e))
  | (st, .ok (dcmR, dcmW)) =>
    let res := import_model arc.models pr.model st
    let st := res.1
    let foundModel := res.2
    let res2 := import_footprint arc.remote arc.footprints foundModel pr.fp st
    let st := res2.1
    let fpRW := res2.2
    match import_lib device arc.remote arc.libSrc pr.lib st with
    | (st, .error e) => (st, .error (.warn e))
    | (st, .ok (libR, libW)) =>
      match fsReplace dcmW dcmR st.1 with
      | none => (st, .error (.replaceMissing dcmW))
      | some fs =>
        match fpRW with
        | (some fr, some fw) =>
          (match fsReplace fw fr fs with
           | none => ((fs, st.2), .error (.replaceMissing fw))
           | some fs =>
             match fsReplace libW libR fs with
             | none => ((fs, st.2), .error (.replaceMissing libW))
             | some fs => ((fs, st.2), .ok ()))
        | _ => ((fs, st.2), .error .replaceNone)

theorem Fs.files_writeFile (fs : Fs) (p : String) (c : List String) (q : String) :
    (fs.writeFile p c).files q = if q = p then some c else fs.files q := rfl

theorem Fs.dirs_writeFile (fs : Fs) (p : String) (c : List String) (q : String) :
    (fs.writeFile p c).dirs q = fs.dirs q := rfl

theorem Fs.files_mkdirAt (fs : Fs) (p q : String) :
    (fs.mkdirAt p).files q = fs.files q := rfl

theorem Fs.dirs_mkdirAt (fs : Fs) (p q : String) :
    (fs.mkdirAt p).dirs q = (q = p || fs.dirs q) := rfl

theorem emptyFs_files (q : String) : emptyFs.files q = none := rfl

theorem emptyFs_dirs (q : String) : emptyFs.dirs q = false := rfl

theorem MergeOut.staged_completed (s : List String) : (MergeOut.completed s).staged = s := rfl

theorem MergeOut.consM_consM (a b : List String) (m : MergeOut) :
    MergeOut.consM a (MergeOut.consM b m) = MergeOut.consM (a ++ b) m := by
  cases m <;> simp [MergeOut.consM]

theorem MergeOut.consM_nil (m : MergeOut) : MergeOut.consM [] m = m := by
  cases m <;> simp [MergeOut.consM]

theorem MergeOut.consM_completed (ls s : List String) :
    MergeOut.consM ls (.completed s) = .completed (ls ++ s) := rfl

theorem MergeOut.consM_declined (ls s : List String) :
    MergeOut.consM ls (.declined s) = .declined (ls ++ s) := rfl

/-- A target line that the merge loop copies verbatim in non-skipping state:
not the trailer, and not an opener whose name prefix-matches the device. -/
def neutralOutside (openTag : String) (getName : String → String) (device l : String) : Bool :=
  !isTrailer l && (!pyStartsWith l openTag || !pyStartsWith (getName l) device)

/-- A line strictly inside a record: neither trailer, opener nor closer. -/
def neutralInside (openTag closeTag : String) (l : String) : Bool :=
  !isTrailer l && !pyStartsWith l openTag && !pyStartsWith l closeTag

theorem mergeFrom_trailer (o c : String) (g : String → String) (d : String)
    (iL rL : List String) (a sk ow : Bool) (t : String) (rest : List String)
    (ht : isTrailer t = true) :
    mergeFrom o c g d iL rL a sk ow (t :: rest) =
      .completed (if ow then [t] else iL ++ [t]) := by
  simp [mergeFrom, ht]

theorem mergeFrom_copy (o c : String) (g : String → String) (d : String)
    (iL rL : List String) (a ow : Bool) (line : String) (rest : List String)
    (hl : neutralOutside o g d line = true) :
    mergeFrom o c g d iL rL a false ow (line :: rest) =
      .consM [line] (mergeFrom o c g d iL rL a false ow rest) := by
  simp only [neutralOutside, Bool.and_eq_true, Bool.or_eq_true, Bool.not_eq_true'] at hl
  obtain ⟨h1, h2⟩ := hl
  cases h2 with
  | inl h2 => simp [mergeFrom, h1, h2]
  | inr h2 =>
    by_cases h3 : pyStartsWith line o = true
    · simp [mergeFrom, h1, h2, h3]
    · simp only [Bool.not_eq_true] at h3
      simp [mergeFrom, h1, h3]

theorem mergeFrom_copyAll (o c : String) (g : String → String) (d : String)
    (iL rL : List String) (a ow : Bool) (body rest : List String)
    (hb : body.all (neutralOutside o g d) = true) :
    mergeFrom o c g d iL rL a false ow (body ++ rest) =
      .consM body (mergeFrom o c g d iL rL a false ow rest) := by
  induction body with
  | nil => simp [MergeOut.consM_nil]
  | cons l ls ih =>
    simp only [List.all_cons, Bool.and_eq_true] at hb
    rw [List.cons_append, mergeFrom_copy o c g d iL rL a ow l (ls ++ rest) hb.1, ih hb.2,
      MergeOut.consM_consM]
    simp

theorem mergeFrom_open_accept (o c : String) (g : String → String) (d : String)
    (iL rL : List String) (sk ow : Bool) (line : String) (rest : List String)
    (h1 : isTrailer line = false) (h2 : pyStartsWith line o = true)
    (h3 : pyStartsWith (g line) d = true) :
    mergeFrom o c g d iL rL true sk ow (line :: rest) =
      .consM rL (mergeFrom o c g d iL rL true true true rest) := by
  simp [mergeFrom, h1, h2, h3]

theorem mergeFrom_open_decline (o c : String) (g : String → String) (d : String)
    (iL rL : List String) (sk ow : Bool) (line : String) (rest : List String)
    (h1 : isTrailer line = false) (h2 : pyStartsWith line o = true)
    (h3 : pyStartsWith (g line) d = true) :
    mergeFrom o c g d iL rL false sk ow (line :: rest) = .declined [] := by
  simp [mergeFrom, h1, h2, h3]

theorem mergeFrom_skip (o c : String) (g : String → String) (d : String)
    (iL rL : List String) (a ow : Bool) (line : String) (rest : List String)
    (hl : neutralInside o c line = true) :
    mergeFrom o c g d iL rL a true ow (line :: rest) =
      mergeFrom o c g d iL rL a true ow rest := by
  simp only [neutralInside, Bool.and_eq_true, Bool.not_eq_true'] at hl
  obtain ⟨⟨h1, h2⟩, h3⟩ := hl
  simp [mergeFrom, h1, h2, h3]

theorem mergeFrom_skipAll (o c : String) (g : String → String) (d : String)
    (iL rL : List String) (a ow : Bool) (mid rest : List String)
    (hm : mid.all (neutralInside o c) = true) :
    mergeFrom o c g d iL rL a true ow (mid ++ rest) =
      mergeFrom o c g d iL rL a true ow rest := by
  induction mid with
  | nil => simp
  | cons l ls ih =>
    simp only [List.all_cons, Bool.and_eq_true] at hm
    rw [List.cons_append, mergeFrom_skip o c g d iL rL a ow l (ls ++ rest) hm.1, ih hm.2]

theorem mergeFrom_close (o c : String) (g : String → String) (d : String)
    (iL rL : List String) (a ow : Bool) (line : String) (rest : List String)
    (h1 : isTrailer line = false) (h2 : pyStartsWith line o = false)
    (h3 : pyStartsWith line c = true) :
    mergeFrom o c g d iL rL a true ow (line :: rest) =
      mergeFrom o c g d iL rL a false ow rest := by
  simp [mergeFrom, h1, h2, h3]

/-- The merge of a target that does not contain the device's record: every
line of `body` is copied and the source record (header included) is
inserted immediately before the trailer. -/
theorem mergeInsert (o c : String) (g : String → String) (d : String)
    (iL rL : List String) (a : Bool) (body : List String) (t : String)
    (hb : body.all (neutralOutside o g d) = true) (ht : isTrailer t = true) :
    mergeFrom o c g d iL rL a false false (body ++ [t]) =
      .completed (body ++ (iL ++ [t])) := by
  rw [mergeFrom_copyAll o c g d iL rL a false body [t] hb,
    mergeFrom_trailer o c g d iL rL a false false t [] ht]
  simp [MergeOut.consM]

/-- The merge of a target containing the device's record, with the
overwrite confirmed: exactly the range from the opener to the closer is
replaced by `replL`; the lines before it (any header block included) and
after it are copied verbatim. -/
theorem mergeReplace (o c : String) (g : String → String) (d : String)
    (iL rL : List String) (pre mid post : List String) (openL closeL t : String)
    (hpre : pre.all (neutralOutside o g d) = true)
    (ho1 : isTrailer openL = false) (ho2 : pyStartsWith openL o = true)
    (ho3 : pyStartsWith (g openL) d = true)
    (hmid : mid.all (neutralInside o c) = true)
    (hc1 : isTrailer closeL = false) (hc2 : pyStartsWith closeL o = false)
    (hc3 : pyStartsWith closeL c = true)
    (hpost : post.all (neutralOutside o g d) = true)
    (ht : isTrailer t = true) :
    mergeFrom o c g d iL rL true false false
        (pre ++ openL :: (mid ++ closeL :: (post ++ [t]))) =
      .completed (pre ++ (rL ++ (post ++ [t]))) := by
  rw [mergeFrom_copyAll o c g d iL rL true false pre _ hpre,
    mergeFrom_open_accept o c g d iL rL false false openL _ ho1 ho2 ho3,
    mergeFrom_skipAll o c g d iL rL true true mid _ hmid,
    mergeFrom_close o c g d iL rL true true closeL _ hc1 hc2 hc3,
    mergeFrom_copyAll o c g d iL rL true true post _ hpost,
    mergeFrom_trailer o c g d iL rL true false true t [] ht]
  simp [MergeOut.consM]

/-- The merge of a target containing the device's record, with the
overwrite declined: the loop returns early and the staging file holds only
the lines strictly before the matched opener. -/
theorem mergeDeclined (o c : String) (g : String → String) (d : String)
    (iL rL : List String) (pre rest : List String) (openL : String)
    (hpre : pre.all (neutralOutside o g d) = true)
    (ho1 : isTrailer openL = false) (ho2 : pyStartsWith openL o = true)
    (ho3 : pyStartsWith (g openL) d = true) :
    mergeFrom o c g d iL rL false false false (pre ++ openL :: rest) = .declined pre := by
  rw [mergeFrom_copyAll o c g d iL rL false false pre _ hpre,
    mergeFrom_open_decline o c g d iL rL false false openL rest ho1 ho2 ho3,
    MergeOut.consM_declined]
  simp

theorem dcmScanA_unexpected (device descReply : String) (pre : List String) (line : String)
    (rest : List String) (hdr : Option Nat) (idx : Nat)
    (hpre : pre.all (fun l => !pyStartsWith l "$CMP ") = true)
    (h1 : pyStartsWith line "$CMP " = true) (h2 : pyStartsWith line "#" = false)
    (h3 : pyStartsWith (dcmGetName line) device = false) :
    dcmScanA device descReply hdr idx (pre ++ line :: rest) = .error .unexpectedDevice := by
  induction pre generalizing hdr idx with
  | nil => simp [dcmScanA, h1, h2, h3]
  | cons l ls ih =>
    have hl1 : pyStartsWith l "$CMP " = false := by
      have := hpre
      simp only [List.all_cons, Bool.and_eq_true, Bool.not_eq_true'] at this
      exact this.1
    have hls : ls.all (fun l => !pyStartsWith l "$CMP ") = true := by
      have := hpre
      simp only [List.all_cons, Bool.and_eq_true] at this
      exact this.2
    by_cases hl : pyStartsWith l "#" = true
    · rw [List.cons_append]
      simp only [dcmScanA, hl, if_true]
      rw [ih _ _ hls]
    · have hl' : pyStartsWith l "#" = false := by simpa using hl
      rw [List.cons_append]
      simp only [dcmScanA, hl', hl1, Bool.false_eq_true, if_false]
      rw [ih _ _ hls]

theorem libScanA_unexpected (device : String) (remote : REMOTE_TYPES) (pre : List String)
    (line : String) (rest : List String) (hdr : Option Nat) (idx : Nat)
    (hpre : pre.all (fun l => !pyStartsWith l "DEF ") = true)
    (h1 : pyStartsWith line "DEF " = true) (h2 : pyStartsWith line "#" = false)
    (h3 : pyStartsWith (libGetName line) device = false) :
    libScanA device remote hdr idx (pre ++ line :: rest) = .error .unexpectedDevice := by
  induction pre generalizing hdr idx with
  | nil => simp [libScanA, h1, h2, h3]
  | cons l ls ih =>
    have hl1 : pyStartsWith l "DEF " = false := by
      have := hpre
      simp only [List.all_cons, Bool.and_eq_true, Bool.not_eq_true'] at this
      exact this.1
    have hls : ls.all (fun l => !pyStartsWith l "DEF ") = true := by
      have := hpre
      simp only [List.all_cons, Bool.and_eq_true] at this
      exact this.2
    by_cases hl : pyStartsWith l "#" = true
    · rw [List.cons_append]
      simp only [libScanA, hl, if_true]
      rw [ih _ _ hls]
    · have hl' : pyStartsWith l "#" = false := by simpa using hl
      rw [List.cons_append]
      simp only [libScanA, hl', hl1, Bool.false_eq_true, if_false]
      rw [ih _ _ hls]

theorem dcmScanB_multiple (descReply : String) (mid : List String) (line2 : String)
    (rest : List String) (idx : Nat)
    (hmid : mid.all (fun l => !pyStartsWith l "$CMP " && !pyStartsWith l "$ENDCMP") = true)
    (h2 : pyStartsWith line2 "$CMP " = true) :
    dcmScanB descReply idx (mid ++ line2 :: rest) = .error .multipleDevices := by
  induction mid generalizing idx with
  | nil => simp [dcmScanB, h2]
  | cons l ls ih =>
    have hl : pyStartsWith l "$CMP " = false ∧ pyStartsWith l "$ENDCMP" = false := by
      have := hmid
      simp only [List.all_cons, Bool.and_eq_true, Bool.not_eq_true'] at this
      exact this.1
    have hls : ls.all (fun l => !pyStartsWith l "$CMP " && !pyStartsWith l "$ENDCMP") = true := by
      have := hmid
      simp only [List.all_cons, Bool.and_eq_true] at this
      exact this.2
    by_cases hd : pyStartsWith l "D" = true
    · rw [List.cons_append]
      simp only [dcmScanB, hl.1, hl.2, hd, Bool.false_eq_true, if_false, if_true]
      rw [ih _ hls]
    · have hd' : pyStartsWith l "D" = false := by simpa using hd
      by_cases hf : pyStartsWith l "F" = true
      · rw [List.cons_append]
        simp only [dcmScanB, hl.1, hl.2, hd', hf, Bool.false_eq_true, if_false, if_true]
        rw [ih _ hls]
      · have hf' : pyStartsWith l "F" = false := by simpa using hf
        rw [List.cons_append]
        simp only [dcmScanB, hl.1, hl.2, hd', hf', Bool.false_eq_true, if_false]
        rw [ih _ hls]

theorem dcmScanA_multiple (device descReply : String) (pre mid rest : List String)
    (openG line2 : String) (hdr : Option Nat) (idx : Nat)
    (hpre : pre.all (fun l => !pyStartsWith l "$CMP ") = true)
    (ho1 : pyStartsWith openG "$CMP " = true) (ho2 : pyStartsWith openG "#" = false)
    (ho3 : pyStartsWith (dcmGetName openG) device = true)
    (hmid : mid.all (fun l => !pyStartsWith l "$CMP " && !pyStartsWith l "$ENDCMP") = true)
    (h2 : pyStartsWith line2 "$CMP " = true) :
    dcmScanA device descReply hdr idx (pre ++ openG :: (mid ++ line2 :: rest)) =
      .error .multipleDevices := by
  induction pre generalizing hdr idx with
  | nil =>
    simp only [List.nil_append, dcmScanA, ho1, ho2, ho3, Bool.false_eq_true, if_false, if_true]
    rw [dcmScanB_multiple descReply mid line2 rest (idx + 1) hmid h2]
  | cons l ls ih =>
    have hl1 : pyStartsWith l "$CMP " = false := by
      have := hpre
      simp only [List.all_cons, Bool.and_eq_true, Bool.not_eq_true'] at this
      exact this.1
    have hls : ls.all (fun l => !pyStartsWith l "$CMP ") = true := by
      have := hpre
      simp only [List.all_cons, Bool.and_eq_true] at this
      exact this.2
    by_cases hl : pyStartsWith l "#" = true
    · rw [List.cons_append]
      simp only [dcmScanA, hl, if_true]
      rw [ih _ _ hls]
    · have hl' : pyStartsWith l "#" = false := by simpa using hl
      rw [List.cons_append]
      simp only [dcmScanA, hl', hl1, Bool.false_eq_true, if_false]
      rw [ih _ _ hls]

/-- Claim C6: for every source record file whose record-opening line carries
a name that does not start with the requested device identifier, the merge
raises the UnexpectedDevice error before any filesystem operation, so the
state is returned unchanged and no write to any library file is performed —
for both the description (`import_dcm`) and the symbol (`import_lib`)
format. -/
theorem claim_C6 (device descReply ovReply libReply : String)
    (preD : List String) (lineD : String) (restD : List String)
    (preL : List String) (lineL : String) (restL : List String)
    (remote : REMOTE_TYPES) (st : Fs × Log)
    (hpreD : preD.all (fun l => !pyStartsWith l "$CMP ") = true)
    (hD1 : pyStartsWith lineD "$CMP " = true) (hD2 : pyStartsWith lineD "#" = false)
    (hD3 : pyStartsWith (dcmGetName lineD) device = false)
    (hpreL : preL.all (fun l => !pyStartsWith l "DEF ") = true)
    (hL1 : pyStartsWith lineL "DEF " = true) (hL2 : pyStartsWith lineL "#" = false)
    (hL3 : pyStartsWith (libGetName lineL) device = false) :
    import_dcm device remote (some (preD ++ lineD :: restD)) descReply ovReply st =
      (st, .error .unexpectedDevice) ∧
    import_lib device remote (preL ++ lineL :: restL) libReply st =
      (st, .error .unexpectedDevice) := by
  have hd := dcmScanA_unexpected device descReply preD lineD restD none 0 hpreD hD1 hD2 hD3
  have hl := libScanA_unexpected device remote preL lineL restL none 0 hpreL hL1 hL2 hL3
  constructor
  · simp [import_dcm, hd]
  · simp [import_lib, hl]

/-- Claim C6 witness: a concrete source whose opener names `XYZ` while the
device is `LM358` makes both merges fail with UnexpectedDevice and leave
the filesystem untouched. -/
theorem claim_C6_witness :
    import_dcm "LM358" REMOTE_TYPES.SAMACSYS (some (["#"] ++ "$CMP XYZ" :: ["$ENDCMP"])) "" ""
        (emptyFs, []) = ((emptyFs, []), .error .unexpectedDevice) ∧
    import_lib "LM358" REMOTE_TYPES.SAMACSYS ([] ++ "DEF XYZ U 0" :: ["ENDDEF"]) ""
        (emptyFs, []) = ((emptyFs, []), .error .unexpectedDevice) :=
  claim_C6 "LM358" "" "" "" ["#"] "$CMP XYZ" ["$ENDCMP"] [] "DEF XYZ U 0" ["ENDDEF"]
    REMOTE_TYPES.SAMACSYS (emptyFs, []) (by decide) (by decide) (by decide) (by decide)
    (by decide) (by decide) (by decide) (by decide)

/-- Claim C7 (amended): only the dcm source scan detects a second record
opener before the corresponding close: it raises MultipleDevicesInFile and
`import_dcm` performs zero writes, returning its state unchanged.  (The lib
scan ignores a second `DEF` before the close — see the counterexample — and
raises only for a `DEF` after the close; target files are never checked.) -/
theorem claim_C7_amended (device descReply ovReply : String) (pre mid rest : List String)
    (openG line2 : String) (remote : REMOTE_TYPES) (st : Fs × Log)
    (hpre : pre.all (fun l => !pyStartsWith l "$CMP ") = true)
    (ho1 : pyStartsWith openG "$CMP " = true) (ho2 : pyStartsWith openG "#" = false)
    (ho3 : pyStartsWith (dcmGetName openG) device = true)
    (hmid : mid.all (fun l => !pyStartsWith l "$CMP " && !pyStartsWith l "$ENDCMP") = true)
    (h2 : pyStartsWith line2 "$CMP " = true) :
    dcmScanA device descReply none 0 (pre ++ openG :: (mid ++ line2 :: rest)) =
      .error .multipleDevices ∧
    import_dcm device remote (some (pre ++ openG :: (mid ++ line2 :: rest))) descReply ovReply st =
      (st, .error .multipleDevices) := by
  have hm := dcmScanA_multiple device descReply pre mid rest openG line2 none 0
    hpre ho1 ho2 ho3 hmid h2
  exact ⟨hm, by simp [import_dcm, hm]⟩

/-- Claim C7 witness: a dcm source with two `$CMP LM358` lines before the
close raises MultipleDevicesInFile and leaves the filesystem untouched. -/
theorem claim_C7_amended_witness :
    dcmScanA "LM358" "" none 0 ([] ++ "$CMP LM358" :: ([] ++ "$CMP LM358" :: ["$ENDCMP"])) =
      .error .multipleDevices ∧
    import_dcm "LM358" REMOTE_TYPES.SAMACSYS
        (some ([] ++ "$CMP LM358" :: ([] ++ "$CMP LM358" :: ["$ENDCMP"]))) "" ""
        (emptyFs, []) = ((emptyFs, []), .error .multipleDevices) :=
  claim_C7_amended "LM358" "" "" [] [] ["$ENDCMP"] "$CMP LM358" "$CMP LM358"
    REMOTE_TYPES.SAMACSYS (emptyFs, []) (by decide) (by decide) (by decide) (by decide)
    (by decide) (by decide)

/-- Claim C7 counterexample: a lib SOURCE file with two `DEF` lines before
the close — exactly the situation the claim says must raise
MultipleDevicesInFile — is accepted without error by `import_lib`, which
writes a staging file (so neither the error nor the zero-writes part of the
claim holds for this input). -/
theorem claim_C7_counterexample :
    (import_lib "LM358" .SAMACSYS
        ["DEF LM358 U 0 40 Y Y 1 F N", "DEF LM358 U 0 40 Y Y 1 F N", "F2 \"FP1\" 0", "ENDDEF"] ""
        ((emptyFs.mkdirAt "remote/lib"), [])).2 =
      .ok ("remote/lib/SAMACSYS.lib", "remote/lib/SAMACSYS.lib~") ∧
    ((import_lib "LM358" .SAMACSYS
        ["DEF LM358 U 0 40 Y Y 1 F N", "DEF LM358 U 0 40 Y Y 1 F N", "F2 \"FP1\" 0", "ENDDEF"] ""
        ((emptyFs.mkdirAt "remote/lib"), [])).1.1).files "remote/lib/SAMACSYS.lib~" =
      some ["EESchema-LIBRARY Version 2.4", "#encoding utf-8",
            "DEF LM358 U 0 40 Y Y 1 F N", "DEF LM358 U 0 40 Y Y 1 F N", "F2 \"SAMACSYS:FP1\" 0",
            "ENDDEF", "# End Library"] :=
  ⟨rfl, rfl⟩

/-- Claim C3 (amended): for a target containing an existing record with a
matching device name, when overwrite is confirmed the merge replaces
exactly the range from the record-opening line through its closing line
with the source record body — the preceding blank-comment header block is
left in place (it belongs to `pre` here) — and every line outside that
range, up to and including the trailer, appears unchanged in the staged
output. -/
theorem claim_C3_amended (device : String) (iL rL pre mid post : List String)
    (openL closeL t : String)
    (hpre : pre.all (neutralOutside "DEF " libGetName device) = true)
    (ho1 : isTrailer openL = false) (ho2 : pyStartsWith openL "DEF " = true)
    (ho3 : pyStartsWith (libGetName openL) device = true)
    (hmid : mid.all (neutralInside "DEF " "ENDDEF") = true)
    (hc1 : isTrailer closeL = false) (hc2 : pyStartsWith closeL "DEF " = false)
    (hc3 : pyStartsWith closeL "ENDDEF" = true)
    (hpost : post.all (neutralOutside "DEF " libGetName device) = true)
    (ht : isTrailer t = true) :
    libMerge device iL rL true (pre ++ openL :: (mid ++ closeL :: (post ++ [t]))) =
      .completed (pre ++ (rL ++ (post ++ [t]))) :=
  mergeReplace "DEF " "ENDDEF" libGetName device iL rL pre mid post openL closeL t
    hpre ho1 ho2 ho3 hmid hc1 hc2 hc3 hpost ht

/-- Claim C3 witness: a concrete replacement in which the old record body
is replaced and the lines around it are copied verbatim. -/
theorem claim_C3_amended_witness :
    libMerge "LM358" ["#", "# LM358", "#", "DEF LM358 U 0", "F2 \"SAMACSYS:FP1\"", "ENDDEF"]
        ["DEF LM358 U 0", "F2 \"SAMACSYS:FP1\"", "ENDDEF"] true
        (["EESchema-LIBRARY Version 2.4", "#", "# OLD", "#"] ++
          "DEF LM358 U 9" :: (["F0 \"U\" 0"] ++ "ENDDEF" :: ([] ++ ["# End Library"]))) =
      .completed (["EESchema-LIBRARY Version 2.4", "#", "# OLD", "#"] ++
        (["DEF LM358 U 0", "F2 \"SAMACSYS:FP1\"", "ENDDEF"] ++ ([] ++ ["# End Library"]))) :=
  claim_C3_amended "LM358" _ _ _ _ _ _ _ _ (by decide) (by decide) (by decide) (by decide)
    (by decide) (by decide) (by decide) (by decide) (by decide) (by decide)

/-- Claim C3 counterexample: a target whose `LM358` record is preceded by a
blank-comment header block.  With the overwrite confirmed, the staged
output still contains the old header line `# OLD-HEADER`: the merge does
NOT fold the header block into the replaced range, contradicting the claim
that the replacement covers the record's range "header included". -/
theorem claim_C3_counterexample :
    ((import_lib "LM358" .SAMACSYS
        ["#", "# LM358", "#", "DEF LM358 U 0 40 Y Y 1 F N", "F2 \"FP1\" 0", "ENDDEF"] ""
        ((emptyFs.mkdirAt "remote/lib").writeFile "remote/lib/SAMACSYS.lib"
          ["EESchema-LIBRARY Version 2.4", "#", "# OLD-HEADER", "#",
           "DEF LM358 U 0 40 Y Y 1 F N", "F0 \"U\" 0", "ENDDEF", "# End Library"], [])).1.1).files
      "remote/lib/SAMACSYS.lib~" =
      some ["EESchema-LIBRARY Version 2.4", "#", "# OLD-HEADER", "#",
            "DEF LM358 U 0 40 Y Y 1 F N", "F2 \"SAMACSYS:FP1\" 0", "ENDDEF", "# End Library"] ∧
    "# OLD-HEADER" ∈
      ["EESchema-LIBRARY Version 2.4", "#", "# OLD-HEADER", "#",
       "DEF LM358 U 0 40 Y Y 1 F N", "F2 \"SAMACSYS:FP1\" 0", "ENDDEF", "# End Library"] ∧
    "# OLD-HEADER" ∉
      ["#", "# LM358", "#", "DEF LM358 U 0 40 Y Y 1 F N", "F2 \"SAMACSYS:FP1\" 0", "ENDDEF"] := by
  exact ⟨rfl, by decide, by decide⟩

/-- Claim C5: idempotence of the description merge.  Merging a source
record (header `hdrL`, body from opener to closer) into a well-formed
target without the record inserts it before the trailer; merging the same
record into that result, with the overwrite prompt confirmed, reproduces
the result unchanged — no growth and no duplicated records. -/
theorem claim_C5 (device : String) (hdrL mid body : List String) (openL closeL t : String)
    (hhdr : hdrL.all (neutralOutside "$CMP " dcmGetName device) = true)
    (hbody : body.all (neutralOutside "$CMP " dcmGetName device) = true)
    (ho1 : isTrailer openL = false) (ho2 : pyStartsWith openL "$CMP " = true)
    (ho3 : pyStartsWith (dcmGetName openL) device = true)
    (hmid : mid.all (neutralInside "$CMP " "$ENDCMP") = true)
    (hc1 : isTrailer closeL = false) (hc2 : pyStartsWith closeL "$CMP " = false)
    (hc3 : pyStartsWith closeL "$ENDCMP" = true)
    (ht : isTrailer t = true) :
    dcmMerge device (hdrL ++ (openL :: (mid ++ [closeL]))) (openL :: (mid ++ [closeL])) true
        (body ++ [t]) =
      .completed (body ++ ((hdrL ++ (openL :: (mid ++ [closeL]))) ++ [t])) ∧
    dcmMerge device (hdrL ++ (openL :: (mid ++ [closeL]))) (openL :: (mid ++ [closeL])) true
        (body ++ ((hdrL ++ (openL :: (mid ++ [closeL]))) ++ [t])) =
      .completed (body ++ ((hdrL ++ (openL :: (mid ++ [closeL]))) ++ [t])) := by
  constructor
  · exact mergeInsert "$CMP " "$ENDCMP" dcmGetName device _ _ true body t hbody ht
  · have hpre : (body ++ hdrL).all (neutralOutside "$CMP " dcmGetName device) = true := by
      simp [List.all_append, hbody, hhdr]
    have h2 := mergeReplace "$CMP " "$ENDCMP" dcmGetName device
      (hdrL ++ (openL :: (mid ++ [closeL]))) (openL :: (mid ++ [closeL]))
      (body ++ hdrL) mid [] openL closeL t hpre ho1 ho2 ho3 hmid hc1 hc2 hc3 (by simp) ht
    have e1 : (body ++ hdrL) ++ openL :: (mid ++ closeL :: ([] ++ [t])) =
        body ++ ((hdrL ++ (openL :: (mid ++ [closeL]))) ++ [t]) := by simp
    rw [e1] at h2
    simp only [dcmMerge]
    rw [h2]
    simp

/-- Claim C5 witness: importing the `LM358` record into the two-line empty
template twice yields the same file both times. -/
theorem claim_C5_witness :
    dcmMerge "LM358" (["#", "# LM358", "#"] ++ ("$CMP LM358" :: (["D Dual opamp"] ++ ["$ENDCMP"])))
        ("$CMP LM358" :: (["D Dual opamp"] ++ ["$ENDCMP"])) true
        (["EESchema-DOCLIB  Version 2.0"] ++ ["#End Doc Library"]) =
      .completed (["EESchema-DOCLIB  Version 2.0"] ++
        ((["#", "# LM358", "#"] ++ ("$CMP LM358" :: (["D Dual opamp"] ++ ["$ENDCMP"]))) ++
          ["#End Doc Library"])) ∧
    dcmMerge "LM358" (["#", "# LM358", "#"] ++ ("$CMP LM358" :: (["D Dual opamp"] ++ ["$ENDCMP"])))
        ("$CMP LM358" :: (["D Dual opamp"] ++ ["$ENDCMP"])) true
        (["EESchema-DOCLIB  Version 2.0"] ++
          ((["#", "# LM358", "#"] ++ ("$CMP LM358" :: (["D Dual opamp"] ++ ["$ENDCMP"]))) ++
            ["#End Doc Library"])) =
      .completed (["EESchema-DOCLIB  Version 2.0"] ++
        ((["#", "# LM358", "#"] ++ ("$CMP LM358" :: (["D Dual opamp"] ++ ["$ENDCMP"]))) ++
          ["#End Doc Library"])) :=
  claim_C5 "LM358" ["#", "# LM358", "#"] ["D Dual opamp"] ["EESchema-DOCLIB  Version 2.0"]
    "$CMP LM358" "$ENDCMP" "#End Doc Library" (by decide) (by decide) (by decide) (by decide)
    (by decide) (by decide) (by decide) (by decide) (by decide) (by decide)

/-- Claim C8: footprint qualification — a symbol source holding the field
line `F2 "FP1"`, imported under remote type SAMACSYS, yields a staged
output in which that field reads `F2 "SAMACSYS:FP1"` (the quoted value
gains the remote-type prefix and a colon). -/
theorem claim_C8 :
    ((import_lib "LM358" .SAMACSYS
        ["#", "# LM358", "#", "DEF LM358 U 0 40 Y Y 1 F N", "F1 \"LM358\" 0", "F2 \"FP1\" 0",
         "ENDDEF"] "" ((emptyFs.mkdirAt "remote/lib"), [])).1.1).files
      "remote/lib/SAMACSYS.lib~" =
      some ["EESchema-LIBRARY Version 2.4", "#encoding utf-8", "#", "# LM358", "#",
            "DEF LM358 U 0 40 Y Y 1 F N", "F1 \"LM358\" 0", "F2 \"SAMACSYS:FP1\" 0", "ENDDEF",
            "# End Library"] ∧
    "F2 \"SAMACSYS:FP1\" 0" ∈
      ["EESchema-LIBRARY Version 2.4", "#encoding utf-8", "#", "# LM358", "#",
       "DEF LM358 U 0 40 Y Y 1 F N", "F1 \"LM358\" 0", "F2 \"SAMACSYS:FP1\" 0", "ENDDEF",
       "# End Library"] :=
  ⟨rfl, by decide⟩

/-- Claim C4: for every well-formed target description library (neutral
body lines followed by the trailer) that does not already contain a record
for the device, the merge copies every existing line unchanged to the
staged output and inserts the scanned source record — its header block
included, via the `[headerStart ?? start, end)` slice — immediately before
the trailer line. -/
theorem claim_C4 (device descReply ovReply : String) (src attrs : List String)
    (s e : Nat) (hdr : Option Nat) (body : List String) (t : String) (fs : Fs) (log : Log)
    (hscan : dcmScanA device descReply none 0 src = .ok (attrs, s, e, hdr))
    (hbody : body.all (neutralOutside "$CMP " dcmGetName device) = true)
    (ht : isTrailer t = true)
    (hr : fs.files "remote/lib/SAMACSYS.dcm" = some (body ++ [t]))
    (hw : fs.files "remote/lib/SAMACSYS.dcm~" = none)
    (hd : fs.dirs "remote/lib" = true) :
    ((import_dcm device .SAMACSYS (some src) descReply ovReply (fs, log)).1.1).files
        "remote/lib/SAMACSYS.dcm~" =
      some (body ++ (pySlice attrs (hdr.getD s) e ++ [t])) ∧
    (import_dcm device .SAMACSYS (some src) descReply ovReply (fs, log)).2 =
      .ok ("remote/lib/SAMACSYS.dcm", "remote/lib/SAMACSYS.dcm~") := by
  have p1 : REMOTE_LIB_PATH ++ "/" ++ REMOTE_TYPES.SAMACSYS.name ++ ".dcm" =
      "remote/lib/SAMACSYS.dcm" := rfl
  have p2 : REMOTE_LIB_PATH ++ "/" ++ REMOTE_TYPES.SAMACSYS.name ++ ".dcm~" =
      "remote/lib/SAMACSYS.dcm~" := rfl
  have hp : parentDir "remote/lib/SAMACSYS.dcm~" = "remote/lib" := rfl
  have hm : dcmMerge device (pySlice attrs (hdr.getD s) e) (pySlice attrs s e)
      (plainAccepts ovReply) (body ++ [t]) =
      .completed (body ++ (pySlice attrs (hdr.getD s) e ++ [t])) :=
    mergeInsert "$CMP " "$ENDCMP" dcmGetName device _ _ _ body t hbody ht
  refine ⟨?_, ?_⟩ <;>
  simp +decide [import_dcm, hscan, check_file, p1, p2, hp, hr, hw, hd, hm,
    Fs.files_writeFile, Fs.dirs_writeFile, Fs.files_mkdirAt, Fs.dirs_mkdirAt,
    MergeOut.staged_completed]

/-- Claim C4 witness: inserting the `LM358` record into the two-line
template target places it, header included, before the trailer. -/
theorem claim_C4_witness :
    ((import_dcm "LM358" .SAMACSYS
        (some ["#", "# LM358", "#", "$CMP LM358", "D Dual opamp", "F http://x/lm358.pdf",
               "$ENDCMP"]) "" ""
        ((emptyFs.mkdirAt "remote/lib").writeFile "remote/lib/SAMACSYS.dcm"
          (["EESchema-DOCLIB  Version 2.0"] ++ ["#End Doc Library"]), [])).1.1).files
        "remote/lib/SAMACSYS.dcm~" =
      some (["EESchema-DOCLIB  Version 2.0"] ++
        (pySlice ["#", "# LM358", "#", "$CMP LM358", "D Dual opamp", "F http://x/lm358.pdf",
                  "$ENDCMP"] ((some 0).getD 3) 7 ++ ["#End Doc Library"])) ∧
    (import_dcm "LM358" .SAMACSYS
        (some ["#", "# LM358", "#", "$CMP LM358", "D Dual opamp", "F http://x/lm358.pdf",
               "$ENDCMP"]) "" ""
        ((emptyFs.mkdirAt "remote/lib").writeFile "remote/lib/SAMACSYS.dcm"
          (["EESchema-DOCLIB  Version 2.0"] ++ ["#End Doc Library"]), [])).2 =
      .ok ("remote/lib/SAMACSYS.dcm", "remote/lib/SAMACSYS.dcm~") :=
  claim_C4 "LM358" "" ""
    ["#", "# LM358", "#", "$CMP LM358", "D Dual opamp", "F http://x/lm358.pdf", "$ENDCMP"]
    ["#", "# LM358", "#", "$CMP LM358", "D Dual opamp", "F http://x/lm358.pdf", "$ENDCMP"]
    3 7 (some 0) ["EESchema-DOCLIB  Version 2.0"] "#End Doc Library"
    ((emptyFs.mkdirAt "remote/lib").writeFile "remote/lib/SAMACSYS.dcm"
      (["EESchema-DOCLIB  Version 2.0"] ++ ["#End Doc Library"])) []
    rfl (by decide) (by decide) rfl rfl rfl

/-- Archive source lines shared by the end-to-end scenarios. -/
def dcmSrcGood : List String :=
  ["#", "# LM358", "#", "$CMP LM358", "D Dual opamp", "F http://x/lm358.pdf", "$ENDCMP"]

def libSrcGood : List String :=
  ["#", "# LM358", "#", "DEF LM358 U 0 40 Y Y 1 F N", "F1 \"LM358\" 0", "F2 \"FP1\" 0", "ENDDEF"]

def libSrcBad : List String := ["DEF XYZ U 0 40 Y Y 1 F N", "ENDDEF"]

/-- Starting filesystem for the failed-run scenario: both library targets
and the footprint target exist, target directories are present. -/
def fsC1 (dcmO libO oldF : List String) : Fs :=
  ((((emptyFs.mkdirAt "remote/lib").mkdirAt "remote/fp/SAMACSYS.pretty").writeFile
      "remote/lib/SAMACSYS.dcm" dcmO).writeFile
      "remote/lib/SAMACSYS.lib" libO).writeFile
      "remote/fp/SAMACSYS.pretty/d.kicad_mod" oldF

/-- A run whose lib stage raises `Unexpected device` after the footprint
stage has already written the footprint target in place. -/
def runC1a (dcmO libO oldF newF : List String) : (Fs × Log) × Except ImpErr Unit :=
  import_all "LM358" ⟨.SAMACSYS, some dcmSrcGood, libSrcBad, [("d.kicad_mod", newF)], []⟩
    ⟨"", "", "", "", ""⟩ (fsC1 dcmO libO oldF, [])

/-- Claim C1 (amended): when a late stage fails (here the lib scan raises
UnexpectedDevice), `import_all` returns the error, no promotion occurs, and
the dcm and lib originals (the dcm one nonempty, so the empty-file template
is not written into it) are unchanged — but the footprint stage has already
overwritten the original footprint target file in place with the imported
content, so that original does NOT survive the failed run. -/
theorem claim_C1_amended (dcmO libO oldF newF : List String) (h : dcmO ≠ []) :
    (runC1a dcmO libO oldF newF).2 = .error (.warn .unexpectedDevice) ∧
    ((runC1a dcmO libO oldF newF).1.1).files "remote/lib/SAMACSYS.dcm" = some dcmO ∧
    ((runC1a dcmO libO oldF newF).1.1).files "remote/lib/SAMACSYS.lib" = some libO ∧
    ((runC1a dcmO libO oldF newF).1.1).files "remote/fp/SAMACSYS.pretty/d.kicad_mod" =
      some newF := by
  have hscan : dcmScanA "LM358" "" none 0 dcmSrcGood =
      .ok (["#", "# LM358", "#", "$CMP LM358", "D Dual opamp", "F http://x/lm358.pdf",
            "$ENDCMP"], 3, 7, some 0) := rfl
  have hlib : libScanA "LM358" REMOTE_TYPES.SAMACSYS none 0 libSrcBad =
      .error .unexpectedDevice := rfl
  have n1 : ("remote/lib/SAMACSYS.dcm" : String) ≠ "remote/lib/SAMACSYS.dcm~" := by decide
  have n2 : ("remote/lib/SAMACSYS.dcm~" : String) ≠ "remote/lib/SAMACSYS.dcm" := by decide
  have n3 : ("remote/lib/SAMACSYS.dcm" : String) ≠ "remote/lib/SAMACSYS.lib" := by decide
  have n4 : ("remote/lib/SAMACSYS.dcm" : String) ≠ "remote/fp/SAMACSYS.pretty/d.kicad_mod" := by
    decide
  have n5 : ("remote/lib/SAMACSYS.lib" : String) ≠ "remote/fp/SAMACSYS.pretty/d.kicad_mod" := by
    decide
  have n6 : ("remote/lib/SAMACSYS.lib" : String) ≠ "remote/lib/SAMACSYS.dcm~" := by decide
  have n7 : ("remote/fp/SAMACSYS.pretty/d.kicad_mod" : String) ≠ "remote/lib/SAMACSYS.dcm~" := by
    decide
  have n8 : ("remote/fp/SAMACSYS.pretty/d.kicad_mod" : String) ≠ "remote/lib/SAMACSYS.dcm" := by
    decide
  have n9 : ("remote/fp/SAMACSYS.pretty/d.kicad_mod" : String) ≠ "remote/lib/SAMACSYS.lib" := by
    decide
  have hp : parentDir "remote/lib/SAMACSYS.dcm~" = "remote/lib" := rfl
  refine ⟨?_, ?_, ?_, ?_⟩ <;>
  simp +decide [runC1a, import_all, import_dcm, hscan, hlib, import_model, import_footprint,
    importModelLoop, importFootprintLoop, import_lib, check_file, fsC1,
    Fs.files_writeFile, Fs.dirs_writeFile, Fs.files_mkdirAt, Fs.dirs_mkdirAt,
    emptyFs_files, emptyFs_dirs, hp, h, n1, n2, n3, n4, n5, n6, n7, n8, n9]

/-- Claim C1 witness: a concrete failed run with nonempty dcm and lib
originals and an existing footprint target. -/
theorem claim_C1_amended_witness :
    (["EESchema-DOCLIB  Version 2.0", "#End Doc Library"] : List String) ≠ [] ∧
    ((runC1a ["EESchema-DOCLIB  Version 2.0", "#End Doc Library"] ["x"] ["(module old)"]
        ["(module d)", "(end)"]).2 = .error (.warn .unexpectedDevice) ∧
      ((runC1a ["EESchema-DOCLIB  Version 2.0", "#End Doc Library"] ["x"] ["(module old)"]
          ["(module d)", "(end)"]).1.1).files "remote/lib/SAMACSYS.dcm" =
        some ["EESchema-DOCLIB  Version 2.0", "#End Doc Library"] ∧
      ((runC1a ["EESchema-DOCLIB  Version 2.0", "#End Doc Library"] ["x"] ["(module old)"]
          ["(module d)", "(end)"]).1.1).files "remote/lib/SAMACSYS.lib" = some ["x"] ∧
      ((runC1a ["EESchema-DOCLIB  Version 2.0", "#End Doc Library"] ["x"] ["(module old)"]
          ["(module d)", "(end)"]).1.1).files "remote/fp/SAMACSYS.pretty/d.kicad_mod" =
        some ["(module d)", "(end)"]) :=
  ⟨by decide,
    claim_C1_amended ["EESchema-DOCLIB  Version 2.0", "#End Doc Library"] ["x"] ["(module old)"]
      ["(module d)", "(end)"] (by decide)⟩

/-- Claim C1 counterexample: a run in which the lib stage raises an error
(no promotion occurs), yet the original footprint target file's contents
changed from `(module old)` to the imported content — contradicting the
claim that on failure every original target file remains unchanged. -/
theorem claim_C1_counterexample :
    (fsC1 ["EESchema-DOCLIB  Version 2.0", "#End Doc Library"] ["x"] ["(module old)"]).files
        "remote/fp/SAMACSYS.pretty/d.kicad_mod" = some ["(module old)"] ∧
    (runC1a ["EESchema-DOCLIB  Version 2.0", "#End Doc Library"] ["x"] ["(module old)"]
        ["(module d)", "(end)"]).2 = .error (.warn .unexpectedDevice) ∧
    ((runC1a ["EESchema-DOCLIB  Version 2.0", "#End Doc Library"] ["x"] ["(module old)"]
        ["(module d)", "(end)"]).1.1).files "remote/fp/SAMACSYS.pretty/d.kicad_mod" =
      some ["(module d)", "(end)"] :=
  ⟨rfl, rfl, rfl⟩

/-- Target symbol library containing an `LM358` record, for the declined-
overwrite scenario. -/
def libTgtRec : List String :=
  ["EESchema-LIBRARY Version 2.4", "#encoding utf-8",
   "DEF LM358 U 0 40 Y Y 1 F N", "F0 \"U\" 0", "ENDDEF", "# End Library"]

/-- A complete run (model installed, all stages succeed) in which the
operator answers `n` to the lib overwrite prompt. -/
def runC2 : (Fs × Log) × Except ImpErr Unit :=
  import_all "LM358"
    ⟨.SAMACSYS, some dcmSrcGood, libSrcGood, [("d.kicad_mod", ["(module d)", "(end)"])],
      [("m.step", ["solid m"])]⟩
    ⟨"", "", "", "", "n"⟩
    (fsC1 ["EESchema-DOCLIB  Version 2.0", "#End Doc Library"] libTgtRec ["(module old)"], [])

/-- Claim C2 (code bug): the target symbol library holds an `LM358` record
and the operator answers `n` to the lib overwrite prompt.  The merge stops
early as the claim says, but `import_lib` returns the partially written
staging file as if successful and `import_all` promotes it over the
original: the run reports success while the lib target has been truncated
to the two lines written before the matched record — the claim's "file
contents identical after the run" is the documented intent (spec section 9
flags this very path as a correctness gap), and the code violates it. -/
theorem claim_C2_code_bug :
    (fsC1 ["EESchema-DOCLIB  Version 2.0", "#End Doc Library"] libTgtRec
        ["(module old)"]).files "remote/lib/SAMACSYS.lib" = some libTgtRec ∧
    runC2.2 = .ok () ∧
    (runC2.1.1).files "remote/lib/SAMACSYS.lib" =
      some ["EESchema-LIBRARY Version 2.4", "#encoding utf-8"] :=
  ⟨rfl, rfl, rfl⟩

/-- Claim C9 counterexample: the model-less footprint branch modifies an
existing target file (a "file modified" side effect), yet the modification
ledger stays empty — so not every filesystem side effect adds a ledger
entry (the MODIFIED_FILE tag is never used by the code). -/
theorem claim_C9_counterexample :
    ((emptyFs.mkdirAt "remote/fp/SAMACSYS.pretty").writeFile
        "remote/fp/SAMACSYS.pretty/d.kicad_mod" ["(module old)"]).files
        "remote/fp/SAMACSYS.pretty/d.kicad_mod" = some ["(module old)"] ∧
    ((import_footprint .SAMACSYS [("d.kicad_mod", ["(module d)", "(end)"])] none ""
        ((emptyFs.mkdirAt "remote/fp/SAMACSYS.pretty").writeFile
          "remote/fp/SAMACSYS.pretty/d.kicad_mod" ["(module old)"], [])).1.1).files
        "remote/fp/SAMACSYS.pretty/d.kicad_mod" = some ["(module d)", "(end)"] ∧
    (import_footprint .SAMACSYS [("d.kicad_mod", ["(module d)", "(end)"])] none ""
        ((emptyFs.mkdirAt "remote/fp/SAMACSYS.pretty").writeFile
          "remote/fp/SAMACSYS.pretty/d.kicad_mod" ["(module old)"], [])).1.2 = ([] : Log) :=
  ⟨rfl, rfl, rfl⟩

/-- Claim C9 (amended): the ledger is a path-keyed dict.  For every
recorded side effect whose path is not already a key — which holds for each
directory creation, file touch and archive extraction the code performs in
one run — the append adds a new entry at the end: earlier entries are
neither removed nor replaced, and entries stay ordered by occurrence.
(File modifications are never recorded; appending an already-present path
would replace its entry in place.) -/
theorem claim_C9_amended (log : Log) (p : String) (m : Modification)
    (h : log.all (fun e => !decide (e.1 = p)) = true) :
    ModifiedObject.append log p m = log ++ [(p, m)] := by
  have hno : ¬ (log.any (fun e => decide (e.1 = p)) = true) := by
    simp only [List.any_eq_true, decide_eq_true_eq]
    rintro ⟨e, he, hep⟩
    simp only [List.all_eq_true, Bool.not_eq_true', decide_eq_false_iff_not] at h
    exact (h e he) hep
  simp [ModifiedObject.append, hno]

/-- Claim C9 witness: appending a fresh path extends the ledger at the end,
keeping the earlier entry. -/
theorem claim_C9_amended_witness :
    ModifiedObject.append [("remote/3d", Modification.MKDIR)]
        "remote/lib/SAMACSYS.dcm~" Modification.TOUCH_FILE =
      [("remote/3d", Modification.MKDIR)] ++
        [("remote/lib/SAMACSYS.dcm~", Modification.TOUCH_FILE)] :=
  claim_C9_amended [("remote/3d", Modification.MKDIR)] "remote/lib/SAMACSYS.dcm~"
    Modification.TOUCH_FILE (by decide)

/-- Starting filesystem for the no-model scenario: both library targets
exist, no footprint staging file exists. -/
def fsC10 (dcmO libO : List String) : Fs :=
  (((emptyFs.mkdirAt "remote/lib").mkdirAt "remote/fp/SAMACSYS.pretty").writeFile
      "remote/lib/SAMACSYS.dcm" dcmO).writeFile "remote/lib/SAMACSYS.lib" libO

/-- A run with no `.step` file in the archive: `import_footprint` takes
the model-less branch and never creates its staging file. -/
def runC10a (dcmO libO fpC : List String) : (Fs × Log) × Except ImpErr Unit :=
  import_all "LM358" ⟨.SAMACSYS, some dcmSrcGood, libSrcGood, [("d.kicad_mod", fpC)], []⟩
    ⟨"", "", "", "", ""⟩ (fsC10 dcmO libO, [])

/-- Claim C10: in a run with no 3D model (no `.step` item in the archive),
`import_footprint` takes the model-less branch and never creates the
staging file it returns as write path.  The final promotion step of
`import_all` therefore fails on that nonexistent path and the run ends in
an error — after the dcm staging file has already been promoted over the
dcm original (the dcm target now holds the merged content and the staging
file is gone), while the lib original is left unpromoted. -/
theorem claim_C10 (dcmO libO fpC : List String) (h1 : dcmO ≠ []) (h2 : libO ≠ []) :
    (runC10a dcmO libO fpC).2 =
      .error (.replaceMissing "remote/fp/SAMACSYS.pretty/d.kicad_mod~") ∧
    ((runC10a dcmO libO fpC).1.1).files "remote/lib/SAMACSYS.dcm~" = none ∧
    ((runC10a dcmO libO fpC).1.1).files "remote/lib/SAMACSYS.dcm" =
      some ((dcmMerge "LM358"
        ["#", "# LM358", "#", "$CMP LM358", "D Dual opamp", "F http://x/lm358.pdf", "$ENDCMP"]
        ["$CMP LM358", "D Dual opamp", "F http://x/lm358.pdf", "$ENDCMP"]
        (plainAccepts "") dcmO).staged) ∧
    ((runC10a dcmO libO fpC).1.1).files "remote/lib/SAMACSYS.lib" = some libO := by
  have hscan : dcmScanA "LM358" "" none 0 dcmSrcGood =
      .ok (["#", "# LM358", "#", "$CMP LM358", "D Dual opamp", "F http://x/lm358.pdf",
            "$ENDCMP"], 3, 7, some 0) := rfl
  have hlib : libScanA "LM358" REMOTE_TYPES.SAMACSYS none 0 libSrcGood =
      .ok (["#", "# LM358", "#", "DEF LM358 U 0 40 Y Y 1 F N", "F1 \"LM358\" 0",
            "F2 \"SAMACSYS:FP1\" 0", "ENDDEF"], 3, 7, some 0) := rfl
  have hq1 : pySlice ["#", "# LM358", "#", "$CMP LM358", "D Dual opamp",
      "F http://x/lm358.pdf", "$ENDCMP"] 0 7 =
      ["#", "# LM358", "#", "$CMP LM358", "D Dual opamp", "F http://x/lm358.pdf",
       "$ENDCMP"] := rfl
  have hq2 : pySlice ["#", "# LM358", "#", "$CMP LM358", "D Dual opamp",
      "F http://x/lm358.pdf", "$ENDCMP"] 3 7 =
      ["$CMP LM358", "D Dual opamp", "F http://x/lm358.pdf", "$ENDCMP"] := rfl
  have hp : parentDir "remote/lib/SAMACSYS.dcm~" = "remote/lib" := rfl
  have hp2 : parentDir "remote/lib/SAMACSYS.lib~" = "remote/lib" := rfl
  refine ⟨?_, ?_, ?_, ?_⟩ <;>
  simp +decide [runC10a, import_all, import_dcm, hscan, hlib, import_model, import_footprint,
    importModelLoop, importFootprintLoop, import_lib, check_file, fsC10, fsReplace,
    Fs.files_writeFile, Fs.dirs_writeFile, Fs.files_mkdirAt, Fs.dirs_mkdirAt,
    emptyFs_files, emptyFs_dirs, hp, hp2, hq1, hq2, h1, h2]

/-- Claim C10 witness: a concrete model-less run fails at the footprint
promotion with the dcm file already promoted. -/
theorem claim_C10_witness :
    (["d"] : List String) ≠ [] ∧ (["l"] : List String) ≠ [] ∧
    ((runC10a ["d"] ["l"] ["(module d)", "(end)"]).2 =
        .error (.replaceMissing "remote/fp/SAMACSYS.pretty/d.kicad_mod~") ∧
      ((runC10a ["d"] ["l"] ["(module d)", "(end)"]).1.1).files
          "remote/lib/SAMACSYS.dcm~" = none ∧
      ((runC10a ["d"] ["l"] ["(module d)", "(end)"]).1.1).files "remote/lib/SAMACSYS.dcm" =
        some ((dcmMerge "LM358"
          ["#", "# LM358", "#", "$CMP LM358", "D Dual opamp", "F http://x/lm358.pdf",
           "$ENDCMP"]
          ["$CMP LM358", "D Dual opamp", "F http://x/lm358.pdf", "$ENDCMP"]
          (plainAccepts "") ["d"]).staged) ∧
      ((runC10a ["d"] ["l"] ["(module d)", "(end)"]).1.1).files "remote/lib/SAMACSYS.lib" =
        some ["l"]) :=
  ⟨by decide, by decide, claim_C10 ["d"] ["l"] ["(module d)", "(end)"] (by decide) (by decide)⟩
